import Mathlib

/-!
Verification of the voice-agent-demo backend.

This file shallowly embeds the silence-detecting audio recorder
(`backend/recorder.py`), the WAV container encoding it produces, the
HTTP route table and chat-history window of `backend/main.py`, and
the call shape of the chat upstream in `backend/services.py`, and
proves the specified properties about them.

Conventions of the embedding:
* Monotonic timestamps are rationals (`ℚ`); the Python float constants
  `0.8` and `0.5` become the exact rationals `8/10` and `1/2`.
* Audio samples are integers (`ℤ`), the int16 values delivered by the
  audio subsystem; the RMS comparison `sqrt(mean(x^2)) > 500` is embedded
  as the equivalent exact comparison `sum(x^2) > 250000 * n` (squaring
  both sides of the comparison of non-negative quantities).
* Stateful methods become functions `RecorderState → result × RecorderState`.
  `threading.Event` is an `Option Bool`: `none` when the attribute is
  `None`, `some flag` when armed, with `flag` the signaled bit.
  `Event.wait` only blocks and mutates nothing, so it is the identity
  on the embedded state.
* Bytes are `List ℕ` (each entry < 256 for well-formed output).
-/

namespace VoiceAgent

/-- Errors raised by `BackendRecorder` (`RecorderError` messages in
`backend/recorder.py`, one constructor per distinct message). -/
inductive RecError where
  | AlreadyRecording
  | NotRecording
  | NoAudioCaptured
  | SilenceDetectorUnavailable
deriving Repr, DecidableEq

/-- State of a `BackendRecorder` instance (`backend/recorder.py`, `__init__`).
`stream` is `some active` when `self._stream` is a stream object whose
`.active` field is `active`, and `none` when `self._stream is None`. -/
structure RecorderState where
  samplerate : ℕ
  channels : ℕ
  frames : List (List ℤ)
  stream : Option Bool
  silence_event : Option Bool
  start_time : Option ℚ
  last_voice_time : Option ℚ
deriving Repr, DecidableEq

/-- A freshly constructed recorder (`BackendRecorder(samplerate, channels)`). -/
def RecorderState.init (samplerate channels : ℕ) : RecorderState :=
  { samplerate := samplerate, channels := channels, frames := [],
    stream := none, silence_event := none,
    start_time := none, last_voice_time := none }

/-- `is_recording` property: `self._stream is not None and self._stream.active`. -/
def is_recording (s : RecorderState) : Bool :=
  match s.stream with
  | some active => active
  | none => false

/-- Sum of squared samples of a chunk, computed exactly. -/
def sumSquares (chunk : List ℤ) : ℤ :=
  (chunk.map (fun x => x * x)).sum

/-- The voiced test of `_update_voice_activity`:
`np.sqrt(np.mean(indata.astype(np.float32) ** 2)) > 500`, embedded exactly as
`mean of squares > 500²`, i.e. `sum of squares > 250000 * length`. -/
def rms_exceeds_threshold (chunk : List ℤ) : Bool :=
  decide ((250000 : ℤ) * chunk.length < sumSquares chunk)

/-- `BackendRecorder._update_voice_activity(indata)` at monotonic time `now`
(`backend/recorder.py:32`): return unchanged when the silence event is
unarmed; on a voiced chunk record `now` as the last voice time and return;
on a quiet chunk, if both timestamps are set and the 0.8 s silence gap and
0.5 s minimum duration have elapsed, set the silence event. -/
def update_voice_activity (s : RecorderState) (chunk : List ℤ) (now : ℚ) :
    RecorderState :=
  match s.silence_event with
  | none => s
  | some _ =>
    if rms_exceeds_threshold chunk then
      { s with last_voice_time := some now }
    else
      match s.last_voice_time, s.start_time with
      | some lvt, some st =>
        if (8 / 10 : ℚ) ≤ now - lvt ∧ (1 / 2 : ℚ) ≤ now - st then
          { s with silence_event := some true }
        else s
      | _, _ => s

/-- The capture callback (`BackendRecorder._callback`): append a copy of the
chunk to the frame buffer, then update voice activity. -/
def callback (s : RecorderState) (chunk : List ℤ) (now : ℚ) : RecorderState :=
  update_voice_activity { s with frames := s.frames ++ [chunk] } chunk now

/-- `BackendRecorder.start()` at monotonic time `now`
(`backend/recorder.py:49`): reject when already recording; otherwise clear
the frame buffer, arm a fresh (unsignaled) silence event, set both
timestamps to `now`, and open and start the input stream. -/
def start (s : RecorderState) (now : ℚ) :
    Except RecError Unit × RecorderState :=
  if is_recording s then (.error .AlreadyRecording, s)
  else
    (.ok (),
     { s with frames := [], silence_event := some false,
              start_time := some now, last_voice_time := some now,
              stream := some true })

/-- A little-endian 16-bit encoding of one int16 sample (`ndarray.tobytes`
on an `int16` array): two bytes of the two's-complement value. -/
def int16LE (x : ℤ) : List ℕ :=
  [(x % 65536).toNat % 256, (x % 65536).toNat / 256]

/-- Two bytes, little endian, of an unsigned 16-bit value. -/
def le16 (n : ℕ) : List ℕ := [n % 256, n / 256 % 256]

/-- Four bytes, little endian, of an unsigned 32-bit value. -/
def le32 (n : ℕ) : List ℕ :=
  [n % 256, n / 256 % 256, n / 65536 % 256, n / 16777216 % 256]

/-- `BackendRecorder._to_wav_bytes(audio_data)` (`backend/recorder.py:90`):
the byte string produced by Python's `wave` module for a seekable buffer
with `nchannels = channels`, `sampwidth = 2`, `framerate = samplerate`,
and the raw sample bytes as the data chunk: the canonical 44-byte
RIFF/WAVE PCM header followed by the little-endian samples. -/
def to_wav_bytes (channels samplerate : ℕ) (audio : List ℤ) : List ℕ :=
  let dataLen := 2 * audio.length
  [82, 73, 70, 70] ++ le32 (36 + dataLen) ++ [87, 65, 86, 69] ++
  [102, 109, 116, 32] ++ le32 16 ++ le16 1 ++ le16 channels ++
  le32 samplerate ++ le32 (samplerate * channels * 2) ++
  le16 (channels * 2) ++ le16 16 ++
  [100, 97, 116, 97] ++ le32 dataLen ++ (audio.map int16LE).flatten

/-- `BackendRecorder.stop()` (`backend/recorder.py:64`): fail when no stream
is open; otherwise stop, close and drop the stream, clear the silence event
and both timestamps, then under the lock fail if the frame buffer is empty,
else concatenate the buffered chunks, clear the buffer, and return the WAV
encoding. -/
def stop (s : RecorderState) : Except RecError (List ℕ) × RecorderState :=
  match s.stream with
  | none => (.error .NotRecording, s)
  | some _ =>
    let s1 := { s with stream := none, silence_event := none,
                       start_time := none, last_voice_time := none }
    if s1.frames = [] then (.error .NoAudioCaptured, s1)
    else
      (.ok (to_wav_bytes s.channels s.samplerate s.frames.flatten),
       { s1 with frames := [] })

/-- `BackendRecorder.stop_when_silent(max_duration)`
(`backend/recorder.py:82`): fail when no stream is open; fail when the
silence event was never armed; otherwise wait on the event with the given
timeout (a pure block: no state change, and a timeout is not an error)
and then perform `stop()`. -/
def stop_when_silent (s : RecorderState) (_max_duration : ℚ) :
    Except RecError (List ℕ) × RecorderState :=
  match s.stream with
  | none => (.error .NotRecording, s)
  | some _ =>
    match s.silence_event with
    | none => (.error .SilenceDetectorUnavailable, s)
    | some _ => stop s

/-- Decoded header facts of a RIFF/WAVE byte string: channel count, sample
rate, and total 16-bit sample count of the data chunk. -/
structure WavInfo where
  channels : ℕ
  samplerate : ℕ
  totalSamples : ℕ
deriving Repr, DecidableEq

/-- Decode a canonical 44-byte-header RIFF/WAVE PCM byte string: check the
`RIFF`/`WAVE`/`fmt `/`data` magic tags, the PCM format tag, the 16-bit
sample width, and that the declared data length matches the bytes present,
and return the channel count (bytes 22–23, little endian), the sample rate
(bytes 24–27), and the total sample count (data length divided by 2). -/
def decode_wav (b : List ℕ) : Option WavInfo :=
  match b with
  | 82 :: 73 :: 70 :: 70 :: _ :: _ :: _ :: _ ::
    87 :: 65 :: 86 :: 69 ::
    102 :: 109 :: 116 :: 32 :: 16 :: 0 :: 0 :: 0 :: 1 :: 0 ::
    ch0 :: ch1 :: r0 :: r1 :: r2 :: r3 :: _ :: _ :: _ :: _ :: _ :: _ ::
    16 :: 0 :: 100 :: 97 :: 116 :: 97 :: d0 :: d1 :: d2 :: d3 :: rest =>
    let dataLen := d0 + 256 * d1 + 65536 * (d2 + 256 * d3)
    if rest.length = dataLen then
      some ⟨ch0 + 256 * ch1, r0 + 256 * r1 + 65536 * (r2 + 256 * r3),
            dataLen / 2⟩
    else none
  | _ => none

/-! ### The HTTP gateway (`backend/main.py`) -/

/-- A registered route of the FastAPI app: HTTP method and path. -/
structure Route where
  method : String
  path : String
deriving Repr, DecidableEq

/-- The complete route table registered on `app` in `backend/main.py`:
every `@app.get`/`@app.post` decorator in the file, in source order. -/
def appRoutes : List Route :=
  [⟨"GET", "/healthz"⟩, ⟨"GET", "/"⟩, ⟨"GET", "/script.js"⟩,
   ⟨"GET", "/style.css"⟩, ⟨"GET", "/wav-recorder.js"⟩, ⟨"GET", "/history"⟩,
   ⟨"POST", "/chat"⟩, ⟨"POST", "/stt"⟩, ⟨"POST", "/tts"⟩]

/-- `CHAT_WINDOW_TURNS = 4` (`backend/main.py:28`). -/
def CHAT_WINDOW_TURNS : ℕ := 4

/-- `max_messages = CHAT_WINDOW_TURNS * 2` (`backend/main.py:139`). -/
def max_messages : ℕ := CHAT_WINDOW_TURNS * 2

/-- One entry of `_chat_history`: a `{"role": ..., "content": ...}` dict. -/
structure ChatMsg where
  role : String
  content : String
deriving Repr, DecidableEq

/-- The history mutation of a successful `chat_endpoint` request
(`backend/main.py:135`): append the user message then the assistant reply,
then `del _chat_history[:-max_messages]` when the length exceeds
`max_messages` (keep only the last `max_messages` entries). -/
def chat_update (history : List ChatMsg) (userMsg aiReply : String) :
    List ChatMsg :=
  let h := history ++ [⟨"user", userMsg⟩, ⟨"assistant", aiReply⟩]
  if max_messages < h.length then h.drop (h.length - max_messages) else h

/-- Chat histories reachable from the initial empty `_chat_history` by
successful `chat_endpoint` requests. -/
inductive ChatReachable : List ChatMsg → Prop where
  | init : ChatReachable []
  | step {h : List ChatMsg} (u a : String) :
      ChatReachable h → ChatReachable (chat_update h u a)

/-- The list of alternating user/assistant pairs: role `"user"` in every
even position, role `"assistant"` in every odd position, even length. -/
def pairsList (ps : List (String × String)) : List ChatMsg :=
  ps.flatMap (fun p => [⟨"user", p.1⟩, ⟨"assistant", p.2⟩])

/-! ### The chat upstream call (`backend/services.py`) -/

/-- The positional-call shape of a plain Python function: how many
parameters it declares and how many of them carry default values. -/
structure PyCallShape where
  paramCount : ℕ
  defaultCount : ℕ
deriving Repr, DecidableEq

/-- A positional call with `args` arguments to a plain Python function
succeeds in binding iff every non-default parameter is supplied and no
extra argument is passed. -/
def py_call_binds (f : PyCallShape) (args : ℕ) : Bool :=
  decide (f.paramCount - f.defaultCount ≤ args ∧ args ≤ f.paramCount)

/-- `async def query_poe(user_message: str)` (`backend/services.py:128`):
one parameter, no defaults, no varargs. -/
def query_poe_shape : PyCallShape := ⟨1, 0⟩

/-- The number of positional arguments in the call
`query_poe(request.message, history_snapshot)` made by `chat_endpoint`
(`backend/main.py:129`). -/
def chat_endpoint_query_poe_args : ℕ := 2

/-- The roles of the `messages` array `query_poe` sends to the chat
upstream: exactly a system prompt followed by the user message — no
history entries appear in the payload. -/
def query_poe_message_roles : List String := ["system", "user"]

/-! ## Theorems -/

/-- A record that differs from `s` only by resetting `silence_event` to the
value it already has is `s` itself. -/
theorem set_event_self (s : RecorderState) (f : Bool)
    (h : s.silence_event = some f) :
    { s with silence_event := some f } = s := by
  cases s
  simp_all

/-- Claim C1: while the silence signal is armed, a chunk whose RMS exceeds
500 updates `last_voice_time` to now and leaves the silence flag alone; a
quiet chunk with both timestamps set, at least 0.8 s after the last voiced
chunk and at least 0.5 s after the start, sets the silence event, and doing
so when the event is already set is a no-op. -/
theorem C1_voice_activity (s : RecorderState) (chunk : List ℤ) (now : ℚ)
    (fired : Bool) (h : s.silence_event = some fired) :
    (rms_exceeds_threshold chunk = true →
      update_voice_activity s chunk now =
        { s with last_voice_time := some now }) ∧
    (∀ lvt st : ℚ, rms_exceeds_threshold chunk = false →
      s.last_voice_time = some lvt → s.start_time = some st →
      (8 / 10 : ℚ) ≤ now - lvt → (1 / 2 : ℚ) ≤ now - st →
      update_voice_activity s chunk now =
        { s with silence_event := some true } ∧
      (fired = true → update_voice_activity s chunk now = s)) := by
  refine ⟨fun hv => ?_, fun lvt st hq hl hs h08 h05 => ?_⟩
  · simp [update_voice_activity, h, hv]
  · have hset : update_voice_activity s chunk now =
        { s with silence_event := some true } := by
      simp only [update_voice_activity, h, hl, hs]
      rw [if_neg (by simp [hq]), if_pos ⟨h08, h05⟩]
    refine ⟨hset, fun hf => ?_⟩
    rw [hset]
    exact set_event_self s true (hf ▸ h)

/-- Claim C1 witness: a concrete quiet chunk sets the silence event. -/
theorem C1_witness :
    update_voice_activity
      ⟨16000, 1, [], some true, some false, some 0, some 0⟩ [0] 1 =
      { (⟨16000, 1, [], some true, some false, some 0, some 0⟩ :
          RecorderState) with silence_event := some true } :=
  ((C1_voice_activity _ [0] 1 false rfl).2 0 0 (by decide) rfl rfl
    (by norm_num) (by norm_num)).1

/-- Claim C2: on a recording session with an armed silence signal,
`stop_when_silent` waits (a pure block with no state effect; a timeout is
not an error) and then behaves exactly as `stop`, result and state. -/
theorem C2_stop_when_silent_eq_stop (s : RecorderState) (b f : Bool) (m : ℚ)
    (h1 : s.stream = some b) (h2 : s.silence_event = some f) :
    stop_when_silent s m = stop s := by
  simp [stop_when_silent, h1, h2]

/-- Claim C2 witness: a concrete recording session. -/
theorem C2_witness :
    stop_when_silent
      ⟨16000, 1, [[1]], some true, some false, some 0, some 0⟩ 5 =
      stop ⟨16000, 1, [[1]], some true, some false, some 0, some 0⟩ :=
  C2_stop_when_silent_eq_stop _ true false 5 rfl rfl

/-- Claim C3: `start` on an idle session succeeds and yields a recording
session; `start` on a recording session fails with `AlreadyRecording` and
leaves the state (still recording) untouched; `stop` always ends with the
session not recording; `stop_when_silent` either ends not recording or
leaves the state untouched. -/
theorem C3_state_transitions (s : RecorderState) (now m : ℚ) :
    (is_recording s = false →
      (start s now).1 = Except.ok () ∧
      is_recording (start s now).2 = true) ∧
    (is_recording s = true →
      (start s now).1 = Except.error RecError.AlreadyRecording ∧
      (start s now).2 = s) ∧
    is_recording (stop s).2 = false ∧
    (is_recording (stop_when_silent s m).2 = false ∨
      (stop_when_silent s m).2 = s) := by
  refine ⟨fun h => ?_, fun h => ?_, ?_, ?_⟩
  · unfold start
    rw [if_neg (by simp [h])]
    exact ⟨rfl, rfl⟩
  · unfold start
    rw [if_pos h]
    exact ⟨rfl, rfl⟩
  · cases hs : s.stream with
    | none => simp [stop, hs, is_recording]
    | some b =>
      by_cases hf : s.frames = [] <;> simp [stop, hs, hf, is_recording]
  · cases hs : s.stream with
    | none => simp [stop_when_silent, hs]
    | some b =>
      cases he : s.silence_event with
      | none => simp [stop_when_silent, hs, he]
      | some f =>
        left
        by_cases hf : s.frames = [] <;>
          simp [stop_when_silent, stop, hs, he, hf, is_recording]

/-- Claim C3 witness: starting an idle session succeeds. -/
theorem C3_witness :
    (start (RecorderState.init 16000 1) 0).1 = Except.ok () ∧
    is_recording (start (RecorderState.init 16000 1) 0).2 = true :=
  (C3_state_transitions (RecorderState.init 16000 1) 0 5).1 rfl

/-- Claim C4: on an idle session (no stream open) both `stop` and
`stop_when_silent` fail with `NotRecording`. -/
theorem C4_idle_stop_fails (s : RecorderState) (m : ℚ)
    (h : s.stream = none) :
    (stop s).1 = Except.error RecError.NotRecording ∧
    (stop_when_silent s m).1 = Except.error RecError.NotRecording := by
  simp [stop, stop_when_silent, h]

/-- Claim C4 witness: the freshly constructed recorder. -/
theorem C4_witness :
    (stop (RecorderState.init 16000 1)).1 =
      Except.error RecError.NotRecording ∧
    (stop_when_silent (RecorderState.init 16000 1) 5).1 =
      Except.error RecError.NotRecording :=
  C4_idle_stop_fails (RecorderState.init 16000 1) 5 rfl

/-- Claim C5: on a recording session, `stop` fails with `NoAudioCaptured`
exactly when the frame buffer is empty, and succeeds exactly when the
frame buffer is non-empty. -/
theorem C5_no_audio_iff_empty (s : RecorderState) (b : Bool)
    (h : s.stream = some b) :
    ((stop s).1 = Except.error RecError.NoAudioCaptured ↔ s.frames = []) ∧
    ((∃ bytes, (stop s).1 = Except.ok bytes) ↔ s.frames ≠ []) := by
  by_cases hf : s.frames = [] <;> simp [stop, h, hf]

/-- Claim C5 witness: a recording session with one buffered chunk. -/
theorem C5_witness :
    ((stop (⟨16000, 1, [[1]], some true, some false, some 0, some 0⟩ :
        RecorderState)).1 = Except.error RecError.NoAudioCaptured ↔
      ([[1]] : List (List ℤ)) = []) ∧
    ((∃ bytes, (stop (⟨16000, 1, [[1]], some true, some false, some 0,
        some 0⟩ : RecorderState)).1 = Except.ok bytes) ↔
      ([[1]] : List (List ℤ)) ≠ []) :=
  C5_no_audio_iff_empty _ true rfl

/-- Claim C9: when `stop` fails with `NoAudioCaptured`, the stream has
already been dropped and the silence event and both timestamps cleared, so
the session ends idle, and a second `stop` fails with `NotRecording`. -/
theorem C9_stop_not_atomic (s : RecorderState) (b : Bool)
    (h1 : s.stream = some b) (h2 : s.frames = []) :
    (stop s).1 = Except.error RecError.NoAudioCaptured ∧
    (stop s).2.stream = none ∧ (stop s).2.silence_event = none ∧
    (stop s).2.start_time = none ∧ (stop s).2.last_voice_time = none ∧
    (stop (stop s).2).1 = Except.error RecError.NotRecording := by
  simp [stop, h1, h2]

/-- Claim C9 witness: a recording session with an empty frame buffer. -/
theorem C9_witness :
    (stop (⟨16000, 1, [], some true, some false, some 0, some 0⟩ :
        RecorderState)).1 = Except.error RecError.NoAudioCaptured ∧
    (stop (⟨16000, 1, [], some true, some false, some 0, some 0⟩ :
        RecorderState)).2.stream = none ∧
    (stop (⟨16000, 1, [], some true, some false, some 0, some 0⟩ :
        RecorderState)).2.silence_event = none ∧
    (stop (⟨16000, 1, [], some true, some false, some 0, some 0⟩ :
        RecorderState)).2.start_time = none ∧
    (stop (⟨16000, 1, [], some true, some false, some 0, some 0⟩ :
        RecorderState)).2.last_voice_time = none ∧
    (stop (stop (⟨16000, 1, [], some true, some false, some 0, some 0⟩ :
        RecorderState)).2).1 = Except.error RecError.NotRecording :=
  C9_stop_not_atomic _ true rfl rfl

/-- Claim C7 counterexample: the FastAPI app of `backend/main.py` registers
neither `POST /record/start` nor `POST /record/stop`; the claimed Recorder
entry points do not exist in the gateway. -/
theorem C7_counterexample :
    (⟨"POST", "/record/start"⟩ : Route) ∉ appRoutes ∧
    (⟨"POST", "/record/stop"⟩ : Route) ∉ appRoutes := by
  decide

/-- Claim C7 (amended): the HTTP gateway exposes no Recorder entry points —
no registered route has path `/record/start` or `/record/stop`. -/
theorem C7_no_recorder_routes (r : Route) (h : r ∈ appRoutes) :
    r.path ≠ "/record/start" ∧ r.path ≠ "/record/stop" := by
  fin_cases h <;> exact ⟨by decide, by decide⟩

/-- Claim C7 witness: the `/chat` route. -/
theorem C7_witness :
    (⟨"POST", "/chat"⟩ : Route).path ≠ "/record/start" ∧
    (⟨"POST", "/chat"⟩ : Route).path ≠ "/record/stop" :=
  C7_no_recorder_routes ⟨"POST", "/chat"⟩ (by decide)

/-- Claim C8: the call `query_poe(request.message, history_snapshot)` made
by `chat_endpoint` passes two positional arguments to a function declared
with a single parameter and no defaults, so the binding fails (a
`TypeError` at every `/chat` request), while a one-argument call binds;
moreover the payload `query_poe` builds carries only a system prompt and
the user message, never history entries. -/
theorem C8_call_arity_mismatch :
    py_call_binds query_poe_shape chat_endpoint_query_poe_args = false ∧
    py_call_binds query_poe_shape 1 = true ∧
    "history" ∉ query_poe_message_roles := by
  refine ⟨by decide, by decide, by decide⟩

/-- `pairsList` on a cons, unfolded. -/
theorem pairsList_cons (p : String × String) (ps : List (String × String)) :
    pairsList (p :: ps) =
      ⟨"user", p.1⟩ :: ⟨"assistant", p.2⟩ :: pairsList ps := rfl

/-- `pairsList` distributes over append. -/
theorem pairsList_append (ps qs : List (String × String)) :
    pairsList (ps ++ qs) = pairsList ps ++ pairsList qs := by
  simp [pairsList]

/-- A list of `n` pairs flattens to `2 * n` messages. -/
theorem pairsList_length (ps : List (String × String)) :
    (pairsList ps).length = 2 * ps.length := by
  induction ps with
  | nil => rfl
  | cons p rest ih =>
    rw [pairsList_cons]
    simp only [List.length_cons, ih]
    ring

/-- Dropping an even number of messages from a flattened pair list drops
whole pairs. -/
theorem pairsList_drop (ps : List (String × String)) (k : ℕ) :
    (pairsList ps).drop (2 * k) = pairsList (ps.drop k) := by
  induction ps generalizing k with
  | nil => simp [pairsList]
  | cons p rest ih =>
    cases k with
    | zero => rfl
    | succ j =>
      rw [pairsList_cons, List.drop_succ_cons]
      have h2 : 2 * (j + 1) = 2 * j + 1 + 1 := by ring
      rw [h2, List.drop_succ_cons, List.drop_succ_cons]
      exact ih j

/-- `chat_update` on a flattened pair list appends the new pair and keeps
the last `CHAT_WINDOW_TURNS` pairs. -/
theorem chat_update_pairs (ps : List (String × String)) (u a : String) :
    chat_update (pairsList ps) u a =
      pairsList ((ps ++ [(u, a)]).drop (ps.length + 1 - CHAT_WINDOW_TURNS)) := by
  have happ : pairsList ps ++ [⟨"user", u⟩, ⟨"assistant", a⟩] =
      pairsList (ps ++ [(u, a)]) := by
    rw [pairsList_append]
    rfl
  unfold chat_update
  rw [happ]
  by_cases hlen : max_messages < (pairsList (ps ++ [(u, a)])).length
  · rw [if_pos hlen]
    have hl : (pairsList (ps ++ [(u, a)])).length = 2 * (ps.length + 1) := by
      rw [pairsList_length]
      simp
    have hdrop : (pairsList (ps ++ [(u, a)])).length - max_messages =
        2 * (ps.length + 1 - CHAT_WINDOW_TURNS) := by
      rw [hl]
      simp only [max_messages, CHAT_WINDOW_TURNS]
      omega
    rw [hdrop, pairsList_drop]
  · rw [if_neg hlen]
    have hl : (pairsList (ps ++ [(u, a)])).length = 2 * (ps.length + 1) := by
      rw [pairsList_length]
      simp
    have hz : ps.length + 1 - CHAT_WINDOW_TURNS = 0 := by
      rw [hl] at hlen
      simp only [max_messages, CHAT_WINDOW_TURNS] at *
      omega
    rw [hz, List.drop_zero]

/-- Every history reachable by successful chat requests is a flattened
list of at most `CHAT_WINDOW_TURNS` pairs. -/
theorem chat_window_invariant (h : List ChatMsg) (hr : ChatReachable h) :
    ∃ ps : List (String × String),
      ps.length ≤ CHAT_WINDOW_TURNS ∧ h = pairsList ps := by
  induction hr with
  | init => exact ⟨[], by simp, rfl⟩
  | step u a _ ih =>
    obtain ⟨ps, hlen, rfl⟩ := ih
    refine ⟨(ps ++ [(u, a)]).drop (ps.length + 1 - CHAT_WINDOW_TURNS),
      ?_, chat_update_pairs ps u a⟩
    simp only [List.length_drop, List.length_append, List.length_cons,
      List.length_nil, CHAT_WINDOW_TURNS]
    omega

/-- Claim C10: after any sequence of successful chat requests (each
appending the user message then the assistant reply and trimming to the
last `max_messages` entries), the in-memory history holds at most
`CHAT_WINDOW_TURNS * 2 = 8` messages and is a flattened list of
alternating user/assistant pairs. -/
theorem C10_history_window (h : List ChatMsg) (hr : ChatReachable h) :
    h.length ≤ max_messages ∧
    ∃ ps : List (String × String), h = pairsList ps := by
  obtain ⟨ps, hlen, rfl⟩ := chat_window_invariant h hr
  refine ⟨?_, ps, rfl⟩
  rw [pairsList_length]
  simp only [max_messages, CHAT_WINDOW_TURNS] at *
  omega

/-- Claim C10 witness: one successful chat request from the empty history. -/
theorem C10_witness :
    (chat_update [] "hi" "hello").length ≤ max_messages ∧
    ∃ ps : List (String × String), chat_update [] "hi" "hello" = pairsList ps :=
  C10_history_window _ (ChatReachable.step "hi" "hello" ChatReachable.init)

/-- A 16-bit little-endian pair reads back to the encoded value. -/
theorem le16_readback (n : ℕ) (h : n < 65536) :
    n % 256 + 256 * (n / 256 % 256) = n := by
  omega

/-- A 32-bit little-endian quadruple reads back to the encoded value. -/
theorem le32_readback (n : ℕ) (h : n < 4294967296) :
    n % 256 + 256 * (n / 256 % 256) +
      65536 * (n / 65536 % 256 + 256 * (n / 16777216 % 256)) = n := by
  omega

/-- Serializing int16 samples yields two bytes per sample. -/
theorem int16_flatten_length (audio : List ℤ) :
    ((audio.map int16LE).flatten).length = 2 * audio.length := by
  induction audio with
  | nil => rfl
  | cons x xs ih =>
    have h2 : (int16LE x).length = 2 := rfl
    simp only [List.map_cons, List.flatten_cons, List.length_append, h2, ih,
      List.length_cons]
    ring

/-- Decoding the encoder's output recovers channel count, sample rate and
total sample count, provided each fits its header field. -/
theorem decode_to_wav_bytes (ch rate : ℕ) (audio : List ℤ)
    (hch : ch < 65536) (hr : rate < 4294967296)
    (hlen : 36 + 2 * audio.length < 4294967296) :
    decode_wav (to_wav_bytes ch rate audio) =
      some ⟨ch, rate, audio.length⟩ := by
  have hstep : decode_wav (to_wav_bytes ch rate audio) =
      if ((audio.map int16LE).flatten).length =
           2 * audio.length % 256 + 256 * (2 * audio.length / 256 % 256) +
           65536 * (2 * audio.length / 65536 % 256 +
             256 * (2 * audio.length / 16777216 % 256)) then
        some ⟨ch % 256 + 256 * (ch / 256 % 256),
              rate % 256 + 256 * (rate / 256 % 256) +
                65536 * (rate / 65536 % 256 +
                  256 * (rate / 16777216 % 256)),
              (2 * audio.length % 256 + 256 * (2 * audio.length / 256 % 256) +
               65536 * (2 * audio.length / 65536 % 256 +
                 256 * (2 * audio.length / 16777216 % 256))) / 2⟩
      else none := rfl
  have hdl : 2 * audio.length % 256 + 256 * (2 * audio.length / 256 % 256) +
      65536 * (2 * audio.length / 65536 % 256 +
        256 * (2 * audio.length / 16777216 % 256)) = 2 * audio.length :=
    le32_readback _ (by omega)
  rw [hstep, hdl, if_pos (int16_flatten_length audio),
    le16_readback ch hch, le32_readback rate hr]
  have h2 : 2 * audio.length / 2 = audio.length := by omega
  rw [h2]

/-- Claim C6: on a recording session with a non-empty buffer, `stop`
returns exactly the RIFF/WAVE encoding of the concatenated samples at the
session's channel count and sample rate, and decoding those bytes yields
back the same channel count, sample rate, and total sample count, provided
each fits its 16- or 32-bit header field. -/
theorem C6_wav_roundtrip (s : RecorderState) (b : Bool)
    (h : s.stream = some b) (hne : s.frames ≠ [])
    (hch : s.channels < 65536) (hr : s.samplerate < 4294967296)
    (hlen : 36 + 2 * s.frames.flatten.length < 4294967296) :
    (stop s).1 =
      Except.ok (to_wav_bytes s.channels s.samplerate s.frames.flatten) ∧
    decode_wav (to_wav_bytes s.channels s.samplerate s.frames.flatten) =
      some ⟨s.channels, s.samplerate, s.frames.flatten.length⟩ := by
  refine ⟨?_, decode_to_wav_bytes _ _ _ hch hr hlen⟩
  simp [stop, h, hne]

/-- Claim C6 witness: one mono chunk of one sample at 16 kHz. -/
theorem C6_witness :
    (stop (⟨16000, 1, [[1]], some true, some false, some 0, some 0⟩ :
        RecorderState)).1 = Except.ok (to_wav_bytes 1 16000 [1]) ∧
    decode_wav (to_wav_bytes 1 16000 [1]) = some ⟨1, 16000, 1⟩ :=
  C6_wav_roundtrip _ true rfl (by decide) (by decide) (by decide) (by decide)

end VoiceAgent
